import Mathlib

/-!
Shallow embedding of the FIFO capital-gains engine of
`src/app/api/cryptocurrencies/route.ts` — the function `calculateGainsLosses`
(and the record types `TaxLot` / `GainLossCalculation` it operates on).

Modelling conventions:
* JavaScript numbers are modelled as exact rationals (`ℚ`); the spec's data
  model speaks of exact decimal amounts and exact equalities.
* `Date` values are modelled by their `getTime()` value: an integer number of
  milliseconds (`ℤ`).
* The source function mutates the `availableLots` array (and the lot objects
  inside it) in place; the embedding threads that array explicitly and returns
  the final array next to the summary, so the post-run lot state is observable.
* The source signature also takes `yearStart`/`yearEnd` parameters, but its
  body never reads them; they are omitted here.
* Of the nested `transaction` reference stored in a `TaxLot`, only the
  cryptocurrency symbol is ever relevant; it is flattened into the `symbol`
  field.
-/

namespace CryptoTax

/-- `interface TaxLot` (route.ts:1305). -/
structure TaxLot where
  id : String
  amount : ℚ
  costBasis : ℚ
  acquiredAt : ℤ
  isClosed : Bool
  symbol : String
  deriving Repr, DecidableEq

/-- The fields of an input transaction record that `calculateGainsLosses`
reads: `type`, `id`, `amount`, `totalUsd`, `timestamp`,
`cryptocurrency.symbol` (flattened to `symbol`). -/
structure Transaction where
  id : String
  type : String
  amount : ℚ
  totalUsd : ℚ
  timestamp : ℤ
  symbol : String
  deriving Repr, DecidableEq

/-- One entry of `result.transactions` (route.ts:1330, pushed at 1544). -/
structure PortionEntry where
  id : String
  type : String
  amount : ℚ
  proceeds : ℚ
  costBasis : ℚ
  gainLoss : ℚ
  term : String
  asset : String
  date : ℤ
  deriving Repr, DecidableEq

/-- `interface GainLossCalculation` (route.ts:1320). -/
structure GainLossCalculation where
  shortTermGains : ℚ
  longTermGains : ℚ
  shortTermLosses : ℚ
  longTermLosses : ℚ
  totalGains : ℚ
  totalLosses : ℚ
  netGainLoss : ℚ
  costBasis : ℚ
  proceeds : ℚ
  transactions : List PortionEntry
  deriving Repr, DecidableEq

/-- The all-zero `result` initializer (route.ts:1477). -/
def initResult : GainLossCalculation :=
  { shortTermGains := 0, longTermGains := 0, shortTermLosses := 0
    longTermLosses := 0, totalGains := 0, totalLosses := 0, netGainLoss := 0
    costBasis := 0, proceeds := 0, transactions := [] }

/-- `1000 * 60 * 60 * 24` (route.ts:1521). -/
def msPerDay : ℚ := 1000 * 60 * 60 * 24

/-- `daysHeld = (transaction.timestamp.getTime() - lot.acquiredAt.getTime()) / (1000*60*60*24)`
(route.ts:1520-1521). -/
def daysHeld (acquiredAt timestamp : ℤ) : ℚ :=
  ((timestamp - acquiredAt : ℤ) : ℚ) / msPerDay

/-- `isLongTerm = daysHeld > 365` (route.ts:1522). -/
def isLongTerm (acquiredAt timestamp : ℤ) : Bool :=
  decide ((365 : ℚ) < daysHeld acquiredAt timestamp)

/-- Lines 1527-1541: route `gainLoss` into `totalGains`/`totalLosses` and the
matching term bucket. -/
def updateBuckets (result : GainLossCalculation) (gainLoss : ℚ)
    (isLong : Bool) : GainLossCalculation :=
  if 0 < gainLoss then
    if isLong then
      { result with totalGains := result.totalGains + gainLoss
                    longTermGains := result.longTermGains + gainLoss }
    else
      { result with totalGains := result.totalGains + gainLoss
                    shortTermGains := result.shortTermGains + gainLoss }
  else
    if isLong then
      { result with totalLosses := result.totalLosses + |gainLoss|
                    longTermLosses := result.longTermLosses + |gainLoss| }
    else
      { result with totalLosses := result.totalLosses + |gainLoss|
                    shortTermLosses := result.shortTermLosses + |gainLoss| }

/-- Lines 1561-1562: the in-place update of a lot that is only consumed in
part: `lot.amount -= lotAmount; lot.costBasis -= lotCostBasis`. -/
def reduceLot (lot : TaxLot) (lotAmount lotCostBasis : ℚ) : TaxLot :=
  { lot with amount := lot.amount - lotAmount
             costBasis := lot.costBasis - lotCostBasis }

/-- Line 1544: `result.transactions.push({...})` — append one detail entry. -/
def pushEntry (result : GainLossCalculation) (e : PortionEntry) :
    GainLossCalculation :=
  { result with transactions := result.transactions ++ [e] }

/-- The `while (remainingAmount > 0 && availableLots.length > 0)` loop of the
SELL branch (route.ts:1512-1566).  State threaded: the lot array, the local
accumulator `totalCostBasis`, and the `result` record.  When the head lot is
only consumed in part the matched amount equals the whole remaining amount
(`min` picked the first argument), so the next iteration's guard
`remainingAmount > 0` fails and the loop stops; the embedding returns there
directly. -/
def sellLoop (transaction : Transaction) :
    ℚ → List TaxLot → ℚ → GainLossCalculation →
    List TaxLot × ℚ × GainLossCalculation
  | _, [], totalCostBasis, result => ([], totalCostBasis, result)
  | remainingAmount, lot :: rest, totalCostBasis, result =>
    if 0 < remainingAmount then
      let lotAmount := min remainingAmount lot.amount
      let lotCostBasis := lot.costBasis / lot.amount * lotAmount
      let lotProceeds := transaction.totalUsd / transaction.amount * lotAmount
      let gainLoss := lotProceeds - lotCostBasis
      let isLong := isLongTerm lot.acquiredAt transaction.timestamp
      let totalCostBasis := totalCostBasis + lotCostBasis
      let result := updateBuckets result gainLoss isLong
      let result := pushEntry result
        { id := transaction.id, type := transaction.type
          amount := lotAmount, proceeds := lotProceeds
          costBasis := lotCostBasis, gainLoss := gainLoss
          term := if isLong then "long" else "short"
          asset := transaction.symbol
          date := transaction.timestamp }
      if lotAmount = lot.amount then
        sellLoop transaction (remainingAmount - lotAmount) rest
          totalCostBasis result
      else
        (reduceLot lot lotAmount lotCostBasis :: rest, totalCostBasis, result)
    else (lot :: rest, totalCostBasis, result)

/-- The lot created for a BUY transaction (route.ts:1497-1504). -/
def newLotFor (transaction : Transaction) : TaxLot :=
  { id := "lot-" ++ transaction.id
    amount := transaction.amount
    costBasis := transaction.totalUsd
    acquiredAt := transaction.timestamp
    isClosed := false
    symbol := transaction.symbol }

/-- The body of `for (const transaction of transactions)`
(route.ts:1494-1571). -/
def step (acc : GainLossCalculation × List TaxLot) (transaction : Transaction) :
    GainLossCalculation × List TaxLot :=
  if transaction.type = "BUY" then
    (acc.1, acc.2 ++ [newLotFor transaction])
  else if transaction.type = "SELL" then
    let remainingAmount := transaction.amount
    let totalProceeds := transaction.totalUsd
    let out := sellLoop transaction remainingAmount acc.2 0 acc.1
    ({ out.2.2 with costBasis := out.2.2.costBasis + out.2.1
                    proceeds := out.2.2.proceeds + totalProceeds }, out.1)
  else acc

/-- `calculateGainsLosses` (route.ts:1471-1577).  Returns the summary together
with the final state of the `availableLots` array. -/
def calculateGainsLosses (transactions : List Transaction)
    (previousTaxLots : List TaxLot) : GainLossCalculation × List TaxLot :=
  let acc := transactions.foldl step (initResult, previousTaxLots)
  ({ acc.1 with netGainLoss := acc.1.totalGains - acc.1.totalLosses }, acc.2)

/-! ### Derived sums used to state the claims -/

/-- Sum of `costBasis` over recorded portions. -/
def sumCB (l : List PortionEntry) : ℚ := (l.map PortionEntry.costBasis).sum

/-- Sum of `proceeds` over recorded portions. -/
def sumProceeds (l : List PortionEntry) : ℚ := (l.map PortionEntry.proceeds).sum

/-- Sum of `gainLoss` over recorded portions. -/
def sumGL (l : List PortionEntry) : ℚ := (l.map PortionEntry.gainLoss).sum

/-- Sum of matched quantities over recorded portions. -/
def sumMatched (l : List PortionEntry) : ℚ := (l.map PortionEntry.amount).sum

/-- Total open quantity held in a lot list. -/
def lotsQty (lots : List TaxLot) : ℚ := (lots.map TaxLot.amount).sum

/-- Total gross value of the SELL transactions of an input list. -/
def sumSellGross (ts : List Transaction) : ℚ :=
  ((ts.filter fun t => t.type = "SELL").map Transaction.totalUsd).sum

/-! ### Helper lemmas -/

@[simp] lemma sumCB_nil : sumCB [] = 0 := rfl

@[simp] lemma sumCB_append (l1 l2 : List PortionEntry) :
    sumCB (l1 ++ l2) = sumCB l1 + sumCB l2 := by
  simp [sumCB]

@[simp] lemma sumGL_nil : sumGL [] = 0 := rfl

@[simp] lemma sumGL_append (l1 l2 : List PortionEntry) :
    sumGL (l1 ++ l2) = sumGL l1 + sumGL l2 := by
  simp [sumGL]

@[simp] lemma sumMatched_nil : sumMatched [] = 0 := rfl

@[simp] lemma sumMatched_append (l1 l2 : List PortionEntry) :
    sumMatched (l1 ++ l2) = sumMatched l1 + sumMatched l2 := by
  simp [sumMatched]

@[simp] lemma sumProceeds_nil : sumProceeds [] = 0 := rfl

@[simp] lemma sumProceeds_append (l1 l2 : List PortionEntry) :
    sumProceeds (l1 ++ l2) = sumProceeds l1 + sumProceeds l2 := by
  simp [sumProceeds]

@[simp] lemma sumCB_singleton (e : PortionEntry) : sumCB [e] = e.costBasis := by
  simp [sumCB]

@[simp] lemma sumGL_singleton (e : PortionEntry) : sumGL [e] = e.gainLoss := by
  simp [sumGL]

@[simp] lemma sumMatched_singleton (e : PortionEntry) :
    sumMatched [e] = e.amount := by
  simp [sumMatched]

@[simp] lemma sumProceeds_singleton (e : PortionEntry) :
    sumProceeds [e] = e.proceeds := by
  simp [sumProceeds]

@[simp] lemma lotsQty_nil : lotsQty [] = 0 := rfl

@[simp] lemma lotsQty_cons (l : TaxLot) (ls : List TaxLot) :
    lotsQty (l :: ls) = l.amount + lotsQty ls := by
  simp [lotsQty]

@[simp] lemma updateBuckets_costBasis (res : GainLossCalculation) (gl : ℚ)
    (lt : Bool) : (updateBuckets res gl lt).costBasis = res.costBasis := by
  unfold updateBuckets; split_ifs <;> rfl

@[simp] lemma updateBuckets_proceeds (res : GainLossCalculation) (gl : ℚ)
    (lt : Bool) : (updateBuckets res gl lt).proceeds = res.proceeds := by
  unfold updateBuckets; split_ifs <;> rfl

@[simp] lemma updateBuckets_transactions (res : GainLossCalculation) (gl : ℚ)
    (lt : Bool) : (updateBuckets res gl lt).transactions = res.transactions := by
  unfold updateBuckets; split_ifs <;> rfl

lemma updateBuckets_net (res : GainLossCalculation) (gl : ℚ) (lt : Bool) :
    (updateBuckets res gl lt).totalGains - (updateBuckets res gl lt).totalLosses
      = res.totalGains - res.totalLosses + gl := by
  unfold updateBuckets
  split_ifs with hpos hlt hlt
  · ring
  · ring
  · rw [abs_of_nonpos (not_lt.mp hpos)]; ring
  · rw [abs_of_nonpos (not_lt.mp hpos)]; ring

@[simp] lemma pushEntry_costBasis (res : GainLossCalculation)
    (e : PortionEntry) : (pushEntry res e).costBasis = res.costBasis := rfl

@[simp] lemma pushEntry_proceeds (res : GainLossCalculation)
    (e : PortionEntry) : (pushEntry res e).proceeds = res.proceeds := rfl

@[simp] lemma pushEntry_totalGains (res : GainLossCalculation)
    (e : PortionEntry) : (pushEntry res e).totalGains = res.totalGains := rfl

@[simp] lemma pushEntry_totalLosses (res : GainLossCalculation)
    (e : PortionEntry) : (pushEntry res e).totalLosses = res.totalLosses := rfl

@[simp] lemma pushEntry_transactions (res : GainLossCalculation)
    (e : PortionEntry) :
    (pushEntry res e).transactions = res.transactions ++ [e] := rfl

/-- `totalGains - totalLosses - sum of recorded gainLoss`, the quantity the
matching loop leaves unchanged. -/
def netDrift (g : GainLossCalculation) : ℚ :=
  g.totalGains - g.totalLosses - sumGL g.transactions

/-- The matching loop never touches the `costBasis` field of the result. -/
lemma sellLoop_costBasis_inv (t : Transaction) (lots : List TaxLot) :
    ∀ (r tcb : ℚ) (res : GainLossCalculation),
    (sellLoop t r lots tcb res).2.2.costBasis = res.costBasis := by
  induction lots with
  | nil => intro r tcb res; simp [sellLoop]
  | cons lot rest ih =>
    intro r tcb res
    by_cases hr : 0 < r
    · rw [sellLoop]
      simp only [if_pos hr]
      by_cases hm : min r lot.amount = lot.amount
      · rw [if_pos hm, ih]; simp
      · rw [if_neg hm]; simp
    · rw [sellLoop]; simp [if_neg hr]

/-- The matching loop never touches the `proceeds` field of the result. -/
lemma sellLoop_proceeds_inv (t : Transaction) (lots : List TaxLot) :
    ∀ (r tcb : ℚ) (res : GainLossCalculation),
    (sellLoop t r lots tcb res).2.2.proceeds = res.proceeds := by
  induction lots with
  | nil => intro r tcb res; simp [sellLoop]
  | cons lot rest ih =>
    intro r tcb res
    by_cases hr : 0 < r
    · rw [sellLoop]
      simp only [if_pos hr]
      by_cases hm : min r lot.amount = lot.amount
      · rw [if_pos hm, ih]; simp
      · rw [if_neg hm]; simp
    · rw [sellLoop]; simp [if_neg hr]

/-- The local accumulator `totalCostBasis` grows by exactly the cost basis
recorded in the portions the loop appends. -/
lemma sellLoop_totalCostBasis (t : Transaction) (lots : List TaxLot) :
    ∀ (r tcb : ℚ) (res : GainLossCalculation),
    (sellLoop t r lots tcb res).2.1
      = tcb + sumCB (sellLoop t r lots tcb res).2.2.transactions
          - sumCB res.transactions := by
  induction lots with
  | nil => intro r tcb res; simp [sellLoop]
  | cons lot rest ih =>
    intro r tcb res
    by_cases hr : 0 < r
    · rw [sellLoop]
      simp only [if_pos hr]
      by_cases hm : min r lot.amount = lot.amount
      · rw [if_pos hm, ih]; simp; ring
      · rw [if_neg hm]; simp; ring
    · rw [sellLoop]; simp [if_neg hr]

/-- The loop preserves `totalGains - totalLosses - sum(gainLoss)`: every
appended portion's gain/loss lands in `totalGains` or (negated) in
`totalLosses`. -/
lemma sellLoop_netDrift (t : Transaction) (lots : List TaxLot) :
    ∀ (r tcb : ℚ) (res : GainLossCalculation),
    netDrift (sellLoop t r lots tcb res).2.2 = netDrift res := by
  induction lots with
  | nil => intro r tcb res; simp [sellLoop]
  | cons lot rest ih =>
    intro r tcb res
    by_cases hr : 0 < r
    · rw [sellLoop]
      simp only [if_pos hr]
      by_cases hm : min r lot.amount = lot.amount
      · rw [if_pos hm, ih]
        unfold netDrift
        simp [updateBuckets_net]
      · rw [if_neg hm]
        unfold netDrift
        simp [updateBuckets_net]
    · rw [sellLoop]; simp [if_neg hr]

@[simp] lemma netDrift_set_cb_proceeds (g : GainLossCalculation) (x y : ℚ) :
    netDrift { g with costBasis := x, proceeds := y } = netDrift g := rfl

@[simp] lemma initResult_costBasis : initResult.costBasis = 0 := rfl

@[simp] lemma initResult_proceeds : initResult.proceeds = 0 := rfl

@[simp] lemma initResult_totalGains : initResult.totalGains = 0 := rfl

@[simp] lemma initResult_totalLosses : initResult.totalLosses = 0 := rfl

@[simp] lemma initResult_transactions : initResult.transactions = [] := rfl

/-- One event step preserves `costBasis = sum of recorded portion cost
bases` (as a difference). -/
lemma step_cb (acc : GainLossCalculation × List TaxLot) (t : Transaction) :
    (step acc t).1.costBasis - sumCB (step acc t).1.transactions
      = acc.1.costBasis - sumCB acc.1.transactions := by
  unfold step
  split_ifs with hb hs
  · simp
  · simp only
    rw [sellLoop_totalCostBasis, sellLoop_costBasis_inv]
    simp
    ring
  · rfl

/-- One event step adds the event's gross value to `proceeds` exactly when
the event is a SELL. -/
lemma step_proceeds (acc : GainLossCalculation × List TaxLot)
    (t : Transaction) :
    (step acc t).1.proceeds
      = acc.1.proceeds + (if t.type = "SELL" then t.totalUsd else 0) := by
  unfold step
  split_ifs with hb hs
  · rw [hb] at hs; simp at hs
  · simp
  · simp [sellLoop_proceeds_inv]
  · simp

/-- One event step preserves `totalGains - totalLosses - sum(gainLoss)`. -/
lemma step_netDrift (acc : GainLossCalculation × List TaxLot)
    (t : Transaction) : netDrift (step acc t).1 = netDrift acc.1 := by
  unfold step
  split_ifs with hb hs
  · rfl
  · simp only
    rw [netDrift_set_cb_proceeds, sellLoop_netDrift]
  · rfl

lemma sumSellGross_cons (t : Transaction) (ts : List Transaction) :
    sumSellGross (t :: ts)
      = (if t.type = "SELL" then t.totalUsd else 0) + sumSellGross ts := by
  unfold sumSellGross
  rw [List.filter_cons]
  split_ifs with h1 h2
  · simp
  · simp_all
  · simp_all
  · simp

/-- Folding the event list preserves the cost-basis conservation gap. -/
lemma run_cb (ts : List Transaction) :
    ∀ acc : GainLossCalculation × List TaxLot,
    (ts.foldl step acc).1.costBasis - sumCB (ts.foldl step acc).1.transactions
      = acc.1.costBasis - sumCB acc.1.transactions := by
  induction ts with
  | nil => intro acc; rfl
  | cons t ts ih =>
    intro acc
    rw [List.foldl_cons, ih, step_cb]

/-- Folding the event list accumulates exactly the SELL gross values into
`proceeds`. -/
lemma run_proceeds (ts : List Transaction) :
    ∀ acc : GainLossCalculation × List TaxLot,
    (ts.foldl step acc).1.proceeds = acc.1.proceeds + sumSellGross ts := by
  induction ts with
  | nil => intro acc; simp [sumSellGross]
  | cons t ts ih =>
    intro acc
    rw [List.foldl_cons, ih, step_proceeds, sumSellGross_cons]
    ring

lemma lotsQty_nonneg (lots : List TaxLot)
    (h : ∀ l ∈ lots, 0 < l.amount) : 0 ≤ lotsQty lots := by
  induction lots with
  | nil => simp
  | cons lot rest ih =>
    have h1 := h lot (List.mem_cons_self _ _)
    have h2 := ih fun l hl => h l (List.mem_cons_of_mem _ hl)
    simp
    linarith

/-- When the disposal quantity strictly exceeds the total quantity held in
the (positive-quantity) open lots, the loop consumes every lot, ends with an
empty lot list, and the portions it appends cover exactly the quantity that
was available — the unmatched remainder is dropped without any signal. -/
lemma sellLoop_exhaust (t : Transaction) (lots : List TaxLot) :
    ∀ (r tcb : ℚ) (res : GainLossCalculation),
    (∀ l ∈ lots, 0 < l.amount) → lotsQty lots < r →
    (sellLoop t r lots tcb res).1 = [] ∧
    sumMatched (sellLoop t r lots tcb res).2.2.transactions
      = sumMatched res.transactions + lotsQty lots := by
  induction lots with
  | nil => intro r tcb res _ _; simp [sellLoop]
  | cons lot rest ih =>
    intro r tcb res hpos hlt
    have hla : 0 < lot.amount := hpos lot (List.mem_cons_self _ _)
    have hrest0 : 0 ≤ lotsQty rest :=
      lotsQty_nonneg rest fun l hl => hpos l (List.mem_cons_of_mem _ hl)
    have hlot_lt : lot.amount < r := by
      simp only [lotsQty_cons] at hlt
      linarith
    have hr : 0 < r := lt_trans hla hlot_lt
    have hm : min r lot.amount = lot.amount := min_eq_right hlot_lt.le
    have hp' : ∀ l ∈ rest, 0 < l.amount :=
      fun l hl => hpos l (List.mem_cons_of_mem _ hl)
    have hl' : lotsQty rest < r - lot.amount := by
      simp only [lotsQty_cons] at hlt
      linarith
    rw [sellLoop]
    simp only [if_pos hr, hm, eq_self_iff_true, if_true]
    have key := fun res' =>
      ih (r - lot.amount) (tcb + lot.costBasis / lot.amount * lot.amount)
        res' hp' hl'
    refine ⟨(key _).1, ?_⟩
    rw [(key _).2]
    simp [pushEntry]
    ring

/-- With a non-positive remaining quantity the loop is a no-op. -/
lemma sellLoop_nonpos (t : Transaction) (lots : List TaxLot) (r tcb : ℚ)
    (res : GainLossCalculation) (h : ¬ 0 < r) :
    sellLoop t r lots tcb res = (lots, tcb, res) := by
  cases lots with
  | nil => simp [sellLoop]
  | cons lot rest => rw [sellLoop]; simp [if_neg h]

/-- A literal transcription of the source's `while` loop as a fuelled
iteration: each pass re-checks `remainingAmount > 0 && availableLots.length
> 0`, performs one match, and loops again in both the fully-consumed and the
partially-consumed case; `none` means the fuel ran out before the loop
condition failed. -/
def sellLoopFuel (t : Transaction) :
    ℕ → ℚ → List TaxLot → ℚ → GainLossCalculation →
    Option (List TaxLot × ℚ × GainLossCalculation)
  | 0, _, _, _, _ => none
  | _ + 1, _, [], totalCostBasis, result => some ([], totalCostBasis, result)
  | fuel + 1, remainingAmount, lot :: rest, totalCostBasis, result =>
    if 0 < remainingAmount then
      let lotAmount := min remainingAmount lot.amount
      let lotCostBasis := lot.costBasis / lot.amount * lotAmount
      let lotProceeds := t.totalUsd / t.amount * lotAmount
      let gainLoss := lotProceeds - lotCostBasis
      let isLong := isLongTerm lot.acquiredAt t.timestamp
      let totalCostBasis := totalCostBasis + lotCostBasis
      let result := updateBuckets result gainLoss isLong
      let result := pushEntry result
        { id := t.id, type := t.type
          amount := lotAmount, proceeds := lotProceeds
          costBasis := lotCostBasis, gainLoss := gainLoss
          term := if isLong then "long" else "short"
          asset := t.symbol
          date := t.timestamp }
      if lotAmount = lot.amount then
        sellLoopFuel t fuel (remainingAmount - lotAmount) rest
          totalCostBasis result
      else
        sellLoopFuel t fuel (remainingAmount - lotAmount)
          (reduceLot lot lotAmount lotCostBasis :: rest) totalCostBasis result
    else some (lot :: rest, totalCostBasis, result)

/-- The fuelled while-loop reaches its final state within `length + 1`
iterations and computes exactly the total function `sellLoop`: each pass
either pops the head lot (the fully-consumed branch) or zeroes the remaining
amount (the partially-consumed branch matched `min(remaining, lot.amount) =
remaining`), after which the loop guard fails. -/
lemma sellLoopFuel_eq (t : Transaction) (lots : List TaxLot) :
    ∀ (r tcb : ℚ) (res : GainLossCalculation),
    sellLoopFuel t (lots.length + 1) r lots tcb res
      = some (sellLoop t r lots tcb res) := by
  induction lots with
  | nil => intro r tcb res; simp [sellLoopFuel, sellLoop]
  | cons lot rest ih =>
    intro r tcb res
    rw [List.length_cons]
    by_cases hr : 0 < r
    · rw [sellLoopFuel, sellLoop]
      simp only [if_pos hr]
      by_cases hm : min r lot.amount = lot.amount
      · simp only [if_pos hm]
        exact ih _ _ _
      · simp only [if_neg hm]
        have hmr : min r lot.amount = r :=
          (min_choice r lot.amount).resolve_right hm
        rw [hmr, sub_self, sellLoopFuel]
        simp
    · rw [sellLoopFuel, sellLoop]
      simp [if_neg hr]

/-- Folding the event list preserves `totalGains - totalLosses -
sum(gainLoss)`. -/
lemma run_netDrift (ts : List Transaction) :
    ∀ acc : GainLossCalculation × List TaxLot,
    netDrift (ts.foldl step acc).1 = netDrift acc.1 := by
  induction ts with
  | nil => intro acc; rfl
  | cons t ts ih =>
    intro acc
    rw [List.foldl_cons, ih, step_netDrift]

/-! ### Claims -/

/-- C3: a matched portion is classified long-term exactly when the elapsed
wall-clock duration from acquisition to disposal strictly exceeds 365 days
(365 days = 31 536 000 000 ms); at exactly `T + 365 days` the portion is
short-term, at `T + 366 days` long-term. -/
theorem claim_C3_holding_boundary :
    (∀ acquiredAt timestamp : ℤ,
      isLongTerm acquiredAt timestamp = true ↔
        365 * 86400000 < timestamp - acquiredAt) ∧
    (∀ T : ℤ, isLongTerm T (T + 365 * 86400000) = false ∧
      isLongTerm T (T + 366 * 86400000) = true) := by
  have main : ∀ a d : ℤ,
      isLongTerm a d = true ↔ 365 * 86400000 < d - a := by
    intro a d
    unfold isLongTerm daysHeld msPerDay
    rw [decide_eq_true_iff]
    rw [lt_div_iff₀ (by norm_num : (0:ℚ) < 1000 * 60 * 60 * 24)]
    have hc : (365 : ℚ) * (1000 * 60 * 60 * 24)
        = ((365 * 86400000 : ℤ) : ℚ) := by norm_num
    rw [hc, Int.cast_lt]
  refine ⟨main, fun T => ⟨?_, ?_⟩⟩
  · rw [Bool.eq_false_iff]
    intro hcontra
    rw [main] at hcontra
    omega
  · rw [main]
    omega

/-- C4: the concrete scenario — buy 2 units for $100 at day 0, buy 3 units
for $210 at day 10, sell 4 units for $800 at day 400.  Lot 1 is consumed in
full ($100 basis, long), 2 of lot 2's 3 units are consumed ($140 basis,
long), the $560 total gain is routed entirely to `longTermGains`, and lot 2
stays open with 1 unit at cost basis $70. -/
theorem claim_C4_scenario :
    calculateGainsLosses
      [{ id := "1", type := "BUY", amount := 2, totalUsd := 100,
         timestamp := 0, symbol := "BTC" },
       { id := "2", type := "BUY", amount := 3, totalUsd := 210,
         timestamp := 10 * 86400000, symbol := "BTC" },
       { id := "3", type := "SELL", amount := 4, totalUsd := 800,
         timestamp := 400 * 86400000, symbol := "BTC" }] []
    = ({ shortTermGains := 0, longTermGains := 560, shortTermLosses := 0,
         longTermLosses := 0, totalGains := 560, totalLosses := 0,
         netGainLoss := 560, costBasis := 240, proceeds := 800,
         transactions :=
           [{ id := "3", type := "SELL", amount := 2, proceeds := 400,
              costBasis := 100, gainLoss := 300, term := "long",
              asset := "BTC", date := 400 * 86400000 },
            { id := "3", type := "SELL", amount := 2, proceeds := 400,
              costBasis := 140, gainLoss := 260, term := "long",
              asset := "BTC", date := 400 * 86400000 }] },
       [{ id := "lot-2", amount := 1, costBasis := 70,
          acquiredAt := 10 * 86400000, isClosed := false,
          symbol := "BTC" }]) := by
  norm_num [calculateGainsLosses, step, sellLoop, updateBuckets, pushEntry,
    isLongTerm, daysHeld, msPerDay, newLotFor, initResult, reduceLot]
  simp

/-- C7: the calculation is a pure function of the event list and the
starting lot state — two runs on equal-valued inputs return identical
summaries and identical final lot states; no clock or randomness enters. -/
theorem claim_C7_determinism (ts1 ts2 : List Transaction)
    (lots1 lots2 : List TaxLot) (ht : ts1 = ts2) (hl : lots1 = lots2) :
    calculateGainsLosses ts1 lots1 = calculateGainsLosses ts2 lots2 := by
  rw [ht, hl]

/-- Witness for C7 at a concrete input. -/
theorem claim_C7_determinism_witness :
    calculateGainsLosses
        [{ id := "1", type := "BUY", amount := 2, totalUsd := 100,
           timestamp := 0, symbol := "BTC" }] []
      = calculateGainsLosses
        [{ id := "1", type := "BUY", amount := 2, totalUsd := 100,
           timestamp := 0, symbol := "BTC" }] [] :=
  claim_C7_determinism _ _ _ _ rfl rfl

/-- C9: the partial-consumption update (`lot.amount -= m;
lot.costBasis -= unitCost * m`) leaves the per-unit cost basis unchanged:
the reduced lot's `costBasis / amount` equals the original ratio. -/
theorem claim_C9_unit_cost_fixed (lot : TaxLot) (lotAmount : ℚ)
    (h0 : lot.amount ≠ 0) (h1 : lotAmount ≠ lot.amount) :
    (reduceLot lot lotAmount (lot.costBasis / lot.amount * lotAmount)).costBasis
        / (reduceLot lot lotAmount
            (lot.costBasis / lot.amount * lotAmount)).amount
      = lot.costBasis / lot.amount := by
  unfold reduceLot
  simp only
  have h2 : lot.amount - lotAmount ≠ 0 := sub_ne_zero.mpr (Ne.symm h1)
  field_simp
  ring

/-- Witness for C9: reducing a 3-unit, $210 lot by 2 matched units keeps the
per-unit basis at $70. -/
theorem claim_C9_unit_cost_fixed_witness :
    (reduceLot
        { id := "L", amount := 3, costBasis := 210, acquiredAt := 0,
          isClosed := false, symbol := "BTC" } 2
        (({ id := "L", amount := 3, costBasis := 210, acquiredAt := 0,
            isClosed := false, symbol := "BTC" } : TaxLot).costBasis
          / ({ id := "L", amount := 3, costBasis := 210, acquiredAt := 0,
               isClosed := false, symbol := "BTC" } : TaxLot).amount
          * 2)).costBasis
      / (reduceLot
          { id := "L", amount := 3, costBasis := 210, acquiredAt := 0,
            isClosed := false, symbol := "BTC" } 2
          (({ id := "L", amount := 3, costBasis := 210, acquiredAt := 0,
              isClosed := false, symbol := "BTC" } : TaxLot).costBasis
            / ({ id := "L", amount := 3, costBasis := 210, acquiredAt := 0,
                 isClosed := false, symbol := "BTC" } : TaxLot).amount
            * 2)).amount
      = ({ id := "L", amount := 3, costBasis := 210, acquiredAt := 0,
           isClosed := false, symbol := "BTC" } : TaxLot).costBasis
        / ({ id := "L", amount := 3, costBasis := 210, acquiredAt := 0,
             isClosed := false, symbol := "BTC" } : TaxLot).amount :=
  claim_C9_unit_cost_fixed _ 2 (by norm_num) (by norm_num)

/-- C1 counterexample: disposing 10 units against a single 6-unit lot.  The
claim says the engine signals an `InsufficientLotsError{unmatchedQuantity:4}`
and never silently truncates; the code has no error channel at all — the run
returns an ordinary summary whose portions cover only 6 of the 10 units,
books the full $100 gross proceeds, and drops the 4 unmatched units without
any record. -/
theorem claim_C1_counterexample :
    sumMatched (calculateGainsLosses
      [{ id := "b", type := "BUY", amount := 6, totalUsd := 60,
         timestamp := 0, symbol := "BTC" },
       { id := "s", type := "SELL", amount := 10, totalUsd := 100,
         timestamp := 86400000, symbol := "BTC" }] []).1.transactions = 6 ∧
    (calculateGainsLosses
      [{ id := "b", type := "BUY", amount := 6, totalUsd := 60,
         timestamp := 0, symbol := "BTC" },
       { id := "s", type := "SELL", amount := 10, totalUsd := 100,
         timestamp := 86400000, symbol := "BTC" }] []).1.proceeds = 100 ∧
    (calculateGainsLosses
      [{ id := "b", type := "BUY", amount := 6, totalUsd := 60,
         timestamp := 0, symbol := "BTC" },
       { id := "s", type := "SELL", amount := 10, totalUsd := 100,
         timestamp := 86400000, symbol := "BTC" }] []).2 = [] := by
  norm_num [calculateGainsLosses, step, sellLoop, updateBuckets, pushEntry,
    isLongTerm, daysHeld, msPerDay, newLotFor, initResult, reduceLot,
    sumMatched]
  simp [sumMatched]

/-- C1 amended: when a disposal's remaining quantity exceeds the total open
quantity (over positive-quantity lots), the matching loop silently
truncates: it signals nothing, consumes every lot (the store ends empty),
and the appended portions cover exactly the quantity that was available —
the lots are reduced only by the units actually matched and the unmatched
remainder leaves no trace. -/
theorem claim_C1_truncation (t : Transaction) (lots : List TaxLot)
    (r tcb : ℚ) (res : GainLossCalculation)
    (hpos : ∀ l ∈ lots, 0 < l.amount) (hlt : lotsQty lots < r) :
    (sellLoop t r lots tcb res).1 = [] ∧
    sumMatched (sellLoop t r lots tcb res).2.2.transactions
      = sumMatched res.transactions + lotsQty lots :=
  sellLoop_exhaust t lots r tcb res hpos hlt

/-- Witness for the amended C1: 10 units disposed against a 6-unit lot. -/
theorem claim_C1_truncation_witness :
    (sellLoop
        { id := "s", type := "SELL", amount := 10, totalUsd := 100,
          timestamp := 86400000, symbol := "BTC" } 10
        [{ id := "lot-b", amount := 6, costBasis := 60, acquiredAt := 0,
           isClosed := false, symbol := "BTC" }] 0 initResult).1 = [] ∧
    sumMatched (sellLoop
        { id := "s", type := "SELL", amount := 10, totalUsd := 100,
          timestamp := 86400000, symbol := "BTC" } 10
        [{ id := "lot-b", amount := 6, costBasis := 60, acquiredAt := 0,
           isClosed := false, symbol := "BTC" }] 0 initResult).2.2.transactions
      = sumMatched initResult.transactions
        + lotsQty [{ id := "lot-b", amount := 6, costBasis := 60,
                     acquiredAt := 0, isClosed := false,
                     symbol := "BTC" }] :=
  claim_C1_truncation _ _ 10 0 initResult
    (by intro l hl; simp at hl; rw [hl]; norm_num)
    (by norm_num [lotsQty])

/-- C2 (code bug): `availableLots` is one shared list, never filtered by
asset — a disposal of one asset consumes lots of another.  Here a 1-ETH
acquisition is followed by a 1-BTC disposal: the BTC sale consumes the ETH
lot (the final lot list is empty), records the ETH lot's $100 basis, and
labels the portion `asset := "BTC"`. -/
theorem claim_C2_cross_asset_bug :
    calculateGainsLosses
      [{ id := "e", type := "BUY", amount := 1, totalUsd := 100,
         timestamp := 0, symbol := "ETH" },
       { id := "b", type := "SELL", amount := 1, totalUsd := 200,
         timestamp := 1000, symbol := "BTC" }] []
    = ({ shortTermGains := 100, longTermGains := 0, shortTermLosses := 0,
         longTermLosses := 0, totalGains := 100, totalLosses := 0,
         netGainLoss := 100, costBasis := 100, proceeds := 200,
         transactions :=
           [{ id := "b", type := "SELL", amount := 1, proceeds := 200,
              costBasis := 100, gainLoss := 100, term := "short",
              asset := "BTC", date := 1000 }] },
       []) := by
  norm_num [calculateGainsLosses, step, sellLoop, updateBuckets, pushEntry,
    isLongTerm, daysHeld, msPerDay, newLotFor, initResult, reduceLot]
  simp

/-- C5 counterexample: a disposal with no open lot to match.  The summary
books the full $100 gross value in `proceeds` while the portion list is
empty, so `totalProceeds = sum(matchedPortions.allocatedProceeds)` fails on
runs with an unmatched disposal. -/
theorem claim_C5_counterexample :
    ¬ ((calculateGainsLosses
        [{ id := "s", type := "SELL", amount := 10, totalUsd := 100,
           timestamp := 0, symbol := "BTC" }] []).1.proceeds
      = sumProceeds (calculateGainsLosses
        [{ id := "s", type := "SELL", amount := 10, totalUsd := 100,
           timestamp := 0, symbol := "BTC" }] []).1.transactions) := by
  norm_num [calculateGainsLosses, step, sellLoop, updateBuckets, pushEntry,
    isLongTerm, daysHeld, msPerDay, newLotFor, initResult, reduceLot,
    sumProceeds]
  simp [sumProceeds]

/-- C5 amended: cost-basis conservation holds on every run —
`summary.costBasis` equals the exact sum of the recorded portions' cost
bases; the proceeds total instead equals the exact sum of the gross values
of all SELL events, which exceeds the portion sum whenever a disposal is not
fully matched. -/
theorem claim_C5_conservation (transactions : List Transaction)
    (previousTaxLots : List TaxLot) :
    (calculateGainsLosses transactions previousTaxLots).1.costBasis
      = sumCB (calculateGainsLosses transactions previousTaxLots).1.transactions ∧
    (calculateGainsLosses transactions previousTaxLots).1.proceeds
      = sumSellGross transactions := by
  unfold calculateGainsLosses
  constructor
  · have h := run_cb transactions (initResult, previousTaxLots)
    simp at h
    simp
    linarith
  · have h := run_proceeds transactions (initResult, previousTaxLots)
    simp at h
    simp [h]

/-- C6: for every run, `netGainLoss = totalGains - totalLosses =
sum(portions.gainLoss)`, and each portion's gain/loss is routed into exactly
one of the four term-by-sign buckets (the other three are untouched, the
matching total moves with it). -/
theorem claim_C6_bucket_invariant :
    (∀ (transactions : List Transaction) (previousTaxLots : List TaxLot),
      (calculateGainsLosses transactions previousTaxLots).1.netGainLoss
        = (calculateGainsLosses transactions previousTaxLots).1.totalGains
          - (calculateGainsLosses transactions previousTaxLots).1.totalLosses ∧
      (calculateGainsLosses transactions previousTaxLots).1.totalGains
          - (calculateGainsLosses transactions previousTaxLots).1.totalLosses
        = sumGL (calculateGainsLosses transactions
            previousTaxLots).1.transactions) ∧
    (∀ (res : GainLossCalculation) (gl : ℚ) (lt : Bool),
      updateBuckets res gl lt
          = { res with totalGains := res.totalGains + gl
                       longTermGains := res.longTermGains + gl } ∨
      updateBuckets res gl lt
          = { res with totalGains := res.totalGains + gl
                       shortTermGains := res.shortTermGains + gl } ∨
      updateBuckets res gl lt
          = { res with totalLosses := res.totalLosses + |gl|
                       longTermLosses := res.longTermLosses + |gl| } ∨
      updateBuckets res gl lt
          = { res with totalLosses := res.totalLosses + |gl|
                       shortTermLosses := res.shortTermLosses + |gl| }) := by
  constructor
  · intro transactions previousTaxLots
    have h := run_netDrift transactions (initResult, previousTaxLots)
    simp [netDrift] at h
    unfold calculateGainsLosses
    constructor
    · simp
    · simp
      linarith
  · intro res gl lt
    unfold updateBuckets
    split_ifs
    · exact Or.inl rfl
    · exact Or.inr (Or.inl rfl)
    · exact Or.inr (Or.inr (Or.inl rfl))
    · exact Or.inr (Or.inr (Or.inr rfl))

/-- C8 counterexample: a malformed acquisition (quantity −2) is not
rejected — the run completes and appends the malformed lot, so the lot
state does not stay "exactly as it was at the start of the run". -/
theorem claim_C8_counterexample :
    (calculateGainsLosses
      [{ id := "m", type := "BUY", amount := -2, totalUsd := 100,
         timestamp := 0, symbol := "BTC" }] []).2 ≠ [] := by
  norm_num [calculateGainsLosses, step, newLotFor, initResult]

/-- C8 amended: the engine performs no input validation at all.  An
acquisition — malformed or not — always appends its lot; a disposal with
non-positive quantity matches nothing and mutates no lot, yet still adds its
full gross value to `proceeds`.  No error is signalled in either case. -/
theorem claim_C8_no_validation :
    (∀ (acc : GainLossCalculation × List TaxLot) (t : Transaction),
      t.type = "BUY" → step acc t = (acc.1, acc.2 ++ [newLotFor t])) ∧
    (∀ (acc : GainLossCalculation × List TaxLot) (t : Transaction),
      t.type = "SELL" → t.amount ≤ 0 →
      (step acc t).2 = acc.2 ∧
      (step acc t).1.transactions = acc.1.transactions ∧
      (step acc t).1.proceeds = acc.1.proceeds + t.totalUsd) := by
  constructor
  · intro acc t ht
    unfold step
    rw [if_pos ht]
  · intro acc t ht ham
    unfold step
    rw [ht]
    simp only [if_neg (show ¬ ("SELL" = "BUY") from by decide),
      if_pos (show ("SELL" = "SELL") from rfl)]
    rw [sellLoop_nonpos _ _ _ _ _ (not_lt.mpr ham)]
    simp

/-- Witness for the amended C8: a −2-quantity BUY is appended, and a
−1-quantity SELL with $500 gross leaves lots and portions alone while
adding $500 to proceeds. -/
theorem claim_C8_no_validation_witness :
    step (initResult, ([] : List TaxLot))
        { id := "m", type := "BUY", amount := -2, totalUsd := 100,
          timestamp := 0, symbol := "BTC" }
      = (initResult, [] ++ [newLotFor
          { id := "m", type := "BUY", amount := -2, totalUsd := 100,
            timestamp := 0, symbol := "BTC" }]) ∧
    (step (initResult, ([] : List TaxLot))
        { id := "n", type := "SELL", amount := -1, totalUsd := 500,
          timestamp := 0, symbol := "BTC" }).1.proceeds
      = initResult.proceeds + 500 :=
  ⟨claim_C8_no_validation.1 (initResult, []) _ rfl,
   (claim_C8_no_validation.2 (initResult, [])
      { id := "n", type := "SELL", amount := -1, totalUsd := 500,
        timestamp := 0, symbol := "BTC" } rfl (by norm_num)).2.2⟩

/-- C10: the per-disposal matching loop terminates on every input — the
fuelled transcription of the source's `while` loop reaches its final state
within `length + 1` passes and agrees with the total function `sellLoop`:
each pass either pops the head lot or zeroes the remaining amount. -/
theorem claim_C10_loop_terminates (t : Transaction) (lots : List TaxLot)
    (r tcb : ℚ) (res : GainLossCalculation) :
    sellLoopFuel t (lots.length + 1) r lots tcb res
      = some (sellLoop t r lots tcb res) :=
  sellLoopFuel_eq t lots r tcb res

end CryptoTax
